import Mathlib

/-!
Verification of the Public_Chat retrieval-augmented chat pipeline.

Shallow embedding of the repository's Python sources:
  * `vector_store.py`   — tenant collection naming, vector-store access, clearing
  * `query_processor.py` — cached QA chain, citation formatting, query pipeline
  * `config.py`          — API-key validation
  * `app.py`             — the standalone public-chat search request builder

External collaborators (Qdrant, Groq, Streamlit cache, environment
variables) are modelled by an explicit environment record `Env`; Python
exceptions are modelled with `Except String`; the Streamlit
`st.cache_resource` memo is an explicit association list threaded through
the functions that use it.
-/

namespace PublicChat

/-- Python values that can occur in a document's metadata dictionary
(strings, ints, floats, None).  Floats are carried as an opaque `Rat`
payload: the code never does arithmetic on a non-integer page value, it
only passes it through. -/
inductive PyVal where
  | vstr : String → PyVal
  | vint : Int → PyVal
  | vfloat : Rat → PyVal
  | vnone : PyVal
deriving DecidableEq, Repr

/-- Python truthiness (`if source:` …) restricted to the modelled values. -/
def pyTruthy : PyVal → Bool
  | .vstr s => !s.isEmpty
  | .vint n => n != 0
  | .vfloat q => q != 0
  | .vnone => false

/-- Python `str()` on the modelled values. -/
def pyStr : PyVal → String
  | .vstr s => s
  | .vint n => toString n
  | .vfloat q => toString q
  | .vnone => "None"

/-- Python `dict.get(key, default)` over an association-list dictionary. -/
def dictGet (m : List (String × PyVal)) (k : String) (dflt : PyVal) : PyVal :=
  (m.lookup k).getD dflt

/-- Python `str.lower()` (ASCII case folding, which covers every indicator
string the code inspects). -/
def pyLower (s : String) : String :=
  ⟨s.data.map Char.toLower⟩

/-- `pat` occurs as a contiguous segment of `l`. -/
def listIsInfix (pat : List Char) : List Char → Bool
  | [] => pat.isEmpty
  | c :: rest => pat.isPrefixOf (c :: rest) || listIsInfix pat rest

/-- Python `pat in s` substring test. -/
def strContains (s pat : String) : Bool :=
  listIsInfix pat.data s.data

/-- Python `os.path.basename` on a POSIX path: everything after the last
slash (computed by a left fold that restarts the segment at each `/`). -/
def basename (s : String) : String :=
  ⟨s.data.foldl (fun acc c => if c = '/' then [] else acc ++ [c]) []⟩

/-- `vector_store.py` lines 6–10: `get_bot_collection_name(user_id, bot_id)`
returns the f-string `f"chatbot_{user_id}_{bot_id}"`. -/
def get_bot_collection_name (user_id bot_id : String) : String :=
  "chatbot_" ++ user_id ++ "_" ++ bot_id

/-- `str.startswith(('http://', 'https://'))` as used by
`format_source_documents`. -/
def startsWithHttp (s : String) : Bool :=
  "http://".data.isPrefixOf s.data || "https://".data.isPrefixOf s.data

/-- One formatted citation record, as appended to `formatted_sources` by
`query_processor.py` `format_source_documents`. -/
structure Citation where
  document : String
  page : PyVal
  excerpt : String
  type : String
deriving DecidableEq, Repr

/-- One retrieved document: a metadata dictionary plus its page content. -/
structure Doc where
  metadata : List (String × PyVal)
  page_content : String
deriving DecidableEq, Repr

/-- `query_processor.py` lines 70–99, the per-document body of
`format_source_documents`: source-type classification, display name,
0→1 page-index conversion for integer pages, and 200-character excerpt
truncation. -/
def format_source_document (doc : Doc) : Citation :=
  let source := dictGet doc.metadata "source" (.vstr "Unknown")
  let isWeb : Bool := match source with
    | .vstr s => startsWithHttp s
    | _ => false
  let source_type := if isWeb then "web" else "pdf"
  let source_name :=
    if isWeb then pyStr source
    else if pyTruthy source then basename (pyStr source) else "Unknown"
  let page_num := dictGet doc.metadata "page" (.vstr "N/A")
  let page_num := match page_num with
    | .vint n => .vint (n + 1)
    | v => v
  let excerpt :=
    if doc.page_content.length > 200 then doc.page_content.take 200 ++ "..."
    else doc.page_content
  { document := source_name, page := page_num, excerpt := excerpt, type := source_type }

/-- `query_processor.py` `format_source_documents`: formats every retrieved
document (the per-document body is total in the model, so the
`except/continue` never fires). -/
def format_source_documents (docs : List Doc) : List Citation :=
  docs.map format_source_document

/-- The four fixed user-facing messages of `process_bot_query`'s `except`
block, `query_processor.py` lines 145–160. -/
def timeoutMsg : String := "Request timed out. Please try a shorter question."

def rateLimitMsg : String := "Rate limit exceeded. Please wait a moment and try again."

def apiKeyMsg : String := "API configuration issue. Please check your settings."

def genericMsg : String := "Sorry, I encountered an issue processing your question. Please try again."

/-- The message returned when the QA chain is `None`
(`query_processor.py` lines 118–123). -/
def kbNotReadyMsg : String := "Knowledge base not ready. Please add documents first."

/-- `query_processor.py` lines 146–153: the `except` block's
classification of an exception's text into one of the four fixed
user-facing messages (`if "timeout" in str(e).lower(): … elif "rate limit"
… elif "api key" … else` the generic default). -/
def classify_error (e : String) : String :=
  if strContains (pyLower e) "timeout" then timeoutMsg
  else if strContains (pyLower e) "rate limit" then rateLimitMsg
  else if strContains (pyLower e) "api key" then apiKeyMsg
  else genericMsg

/-- Python truthiness of an optional configuration string
(`not qdrant_config['api_key']`: `None` and the empty string are falsy). -/
def pyTruthyStrOpt : Option String → Bool
  | some s => !s.isEmpty
  | none => false

/-- The behaviour of every external collaborator the pipeline touches:
environment/secret configuration (`config.py`), the remote Qdrant store
(`points` maps a collection name to its stored documents, `none` meaning
the collection does not exist so reads raise), the similarity-search
ranking, and the Groq completion host (`llm_result` yields the answer or
the text of a raised exception). -/
structure Env where
  groq_api_key : Option String
  qdrant_api_key : Option String
  qdrant_url : Option String
  /-- `some e`: constructing the Qdrant client raises an exception `e`. -/
  client_error : Option String
  /-- the embedding model imports and initialises successfully -/
  embedding_ok : Bool
  points : String → Option (List Doc)
  retrieve : String → String → List Doc
  llm_result : String → Except String String

/-- `config.py` `validate_api_key`: returns the Groq key or raises
`ValueError("GROQ_API_KEY not found")` when it is absent or empty. -/
def validate_api_key (env : Env) : Except String String :=
  match env.groq_api_key with
  | some k => if k.isEmpty then .error "GROQ_API_KEY not found" else .ok k
  | none => .error "GROQ_API_KEY not found"

/-- `vector_store.py` lines 65–112 `get_vector_store`: the configuration
check raises (`Except.error`) before the `try`; inside the `try`, a client
failure or a missing collection or a failed embedding-model initialisation
is caught and yields `None`; otherwise the Qdrant binding for the tenant's
collection (represented by its collection name) is returned. -/
def get_vector_store (env : Env) (user_id bot_id : String) :
    Except String (Option String) :=
  let collection_name := get_bot_collection_name user_id bot_id
  if !pyTruthyStrOpt env.qdrant_api_key || !pyTruthyStrOpt env.qdrant_url then
    .error "Qdrant Cloud not configured"
  else
    match env.client_error with
    | some _ => .ok none
    | none =>
      if (env.points collection_name).isNone then .ok none
      else if !env.embedding_ok then .ok none
      else .ok (some collection_name)

/-- The per-tenant retrieval handle built by `get_cached_qa_chain`: the
Groq key, the bound collection name, the prompt and the temperature.
The temperature is carried as an opaque `Rat` stand-in for the Python
float: the code never computes with it, it is only a cache-key component
passed through to the LLM client. -/
structure QAChain where
  groq_api_key : String
  collection_name : String
  system_prompt : String
  temperature : Rat
deriving DecidableEq, Repr

/-- The `st.cache_resource` key of `get_cached_qa_chain`: its five
arguments. -/
structure CacheKey where
  groq_api_key : String
  user_id : String
  bot_id : String
  system_prompt : String
  temperature : Rat
deriving DecidableEq, Repr

/-- The `st.cache_resource` memo for `get_cached_qa_chain`.  Streamlit
caches the returned value — including `None` — per argument tuple. -/
abbrev Cache := List (CacheKey × Option QAChain)

/-- The body of `query_processor.py` lines 9–67 `get_cached_qa_chain`
(without the memo): its `try` block loads the vector store and builds the
chain; any exception — including the configuration `ValueError` raised by
`get_vector_store` — is caught and yields `None`. -/
def build_qa_chain (env : Env) (groq_api_key user_id bot_id system_prompt : String)
    (temperature : Rat) : Option QAChain :=
  match get_vector_store env user_id bot_id with
  | .error _ => none
  | .ok none => none
  | .ok (some cname) => some ⟨groq_api_key, cname, system_prompt, temperature⟩

/-- `query_processor.py` `get_cached_qa_chain` with its
`@st.cache_resource` memo: a hit returns the cached value (even a cached
`None`) without re-running the body; a miss runs the body and stores the
result under the argument tuple. -/
def get_cached_qa_chain (env : Env) (cache : Cache)
    (groq_api_key user_id bot_id system_prompt : String) (temperature : Rat) :
    Option QAChain × Cache :=
  let key : CacheKey := ⟨groq_api_key, user_id, bot_id, system_prompt, temperature⟩
  match cache.lookup key with
  | some v => (v, cache)
  | none =>
    let v := build_qa_chain env groq_api_key user_id bot_id system_prompt temperature
    (v, (key, v) :: cache)

/-- One outbound call of the retrieval/completion phase, recorded so that
"performs no similarity search and no completion call" is a statement
about the trace. -/
inductive Call where
  | search : String → String → Call
  | completion : String → Call
deriving DecidableEq, Repr

/-- `qa_chain.invoke({'query': query})`: the `RetrievalQA` chain first runs
the retriever (a top-5 similarity search against the chain's bound
collection — searching a collection that no longer exists raises the
Qdrant not-found error), then issues the completion request; either step
may raise.  Returns the outcome together with the calls performed. -/
def invoke_qa_chain (env : Env) (chain : QAChain) (query : String) :
    Except String (String × List Doc) × List Call :=
  match env.points chain.collection_name with
  | none =>
    (.error ("Not found: Collection " ++ chain.collection_name ++ " does not exist"),
     [.search chain.collection_name query])
  | some _ =>
    let docs := (env.retrieve chain.collection_name query).take 5
    match env.llm_result query with
    | .error e => (.error e, [.search chain.collection_name query, .completion query])
    | .ok ans => (.ok (ans, docs), [.search chain.collection_name query, .completion query])

/-- The dictionary returned by `process_bot_query`. -/
structure PyResult where
  success : Bool
  answer : Option String
  sources : Option (List Citation)
  error : Option String
deriving DecidableEq, Repr

/-- The `try` body of `query_processor.py` lines 106–143
`process_bot_query`: validate the Groq key (may raise), fetch the memoised
chain, short-circuit with the knowledge-base message when the chain is
`None`, otherwise invoke the chain (may raise) and format the sources.
`Except.error e` is an exception propagating to the function's `except`
block; the call trace and the memo state are threaded alongside. -/
def process_bot_query_body (env : Env) (cache : Cache)
    (user_id bot_id query system_prompt : String) (temperature : Rat) :
    Except String PyResult × List Call × Cache :=
  match validate_api_key env with
  | .error e => (.error e, [], cache)
  | .ok groq_api_key =>
    let res := get_cached_qa_chain env cache groq_api_key user_id bot_id system_prompt temperature
    match res.1 with
    | none =>
      (.ok { success := false, answer := none, sources := none,
             error := some kbNotReadyMsg }, [], res.2)
    | some chain =>
      match (invoke_qa_chain env chain query).1 with
      | .error e => (.error e, (invoke_qa_chain env chain query).2, res.2)
      | .ok pr =>
        (.ok { success := true, answer := some pr.1,
               sources := some (format_source_documents pr.2), error := none },
         (invoke_qa_chain env chain query).2, res.2)

/-- `query_processor.py` lines 106–160 `process_bot_query`: the `try` body
plus the `except` block, which converts any exception into a failure
dictionary whose message is chosen by `classify_error`. -/
def process_bot_query (env : Env) (cache : Cache)
    (user_id bot_id query system_prompt : String) (temperature : Rat) :
    PyResult × List Call × Cache :=
  match process_bot_query_body env cache user_id bot_id query system_prompt temperature with
  | (.ok d, calls, c) => (d, calls, c)
  | (.error e, calls, c) =>
    ({ success := false, answer := none, sources := none,
       error := some (classify_error e) }, calls, c)

/-- `vector_store.py` lines 126–136 `clear_bot_knowledge`: deletes the
tenant's collection; every exception (client failure, deleting an absent
collection) is caught and yields `False`. -/
def clear_bot_knowledge (env : Env) (user_id bot_id : String) : Bool × Env :=
  match env.client_error with
  | some _ => (false, env)
  | none =>
    let cname := get_bot_collection_name user_id bot_id
    match env.points cname with
    | none => (false, env)
    | some _ =>
      (true, { env with points := fun n => if n = cname then none else env.points n })

/-- The search request `app.py` lines 46–64 `get_vector_search_results`
posts to the vector store: the URL embeds the collection name
`f"chatbot_{bot_id}"` and the JSON body carries the vector `[0] * 384`
and `"limit": 5`. -/
structure SearchRequest where
  url : String
  vector : List Int
  limit : Nat
  with_payload : Bool
deriving DecidableEq, Repr

/-- `app.py` lines 46–64 `get_vector_search_results`, reduced to the
request it sends (the part of the function the claim is about). -/
def get_vector_search_results_request (qdrant_url bot_id query : String) :
    SearchRequest :=
  { url := qdrant_url ++ "/collections/chatbot_" ++ bot_id ++ "/points/search"
  , vector := List.replicate 384 0
  , limit := 5
  , with_payload := true }

/-! ### Concrete example data used by witnesses and counterexamples -/

/-- A stored document chunk for tenant `(u1, b1)`. -/
def docEx : Doc :=
  ⟨[("source", .vstr "policy.pdf"), ("page", .vint 2)],
   "Refunds are processed within 5 business days."⟩

/-- A fully configured, healthy environment in which tenant `(u1, b1)`
has one ingested document. -/
def envEx : Env :=
  { groq_api_key := some "gk"
  , qdrant_api_key := some "qk"
  , qdrant_url := some "https://q.example"
  , client_error := none
  , embedding_ok := true
  , points := fun n => if n = "chatbot_u1_b1" then some [docEx] else none
  , retrieve := fun n _ => if n = "chatbot_u1_b1" then [docEx] else []
  , llm_result := fun _ => .ok "Refunds take five business days." }

/-- Like `envEx` but the knowledge base of `(u1, b1)` is empty (the
collection does not exist). -/
def envNoColl : Env :=
  { envEx with points := fun _ => none, retrieve := fun _ _ => [] }

/-- Like `envEx` but the completion call raises a read-timeout error. -/
def envTimeoutEx : Env :=
  { envEx with llm_result := fun _ => .error "Read timed out. (read timeout=30)" }

/-- Like `envEx` but the completion call raises an exception whose text is
the single word `Sorry`. -/
def envSorryEx : Env :=
  { envEx with llm_result := fun _ => .error "Sorry" }

/-- The cache key of tenant `(u1, b1)` with prompt `sys`, temperature 1. -/
def keyEx : CacheKey := ⟨"gk", "u1", "b1", "sys", 1⟩

/-- The retrieval handle that `get_cached_qa_chain` builds for `keyEx`. -/
def chainEx : QAChain := ⟨"gk", "chatbot_u1_b1", "sys", 1⟩

/-- A memo already holding the handle for tenant `(u1, b1)`. -/
def cacheEx : Cache := [(keyEx, some chainEx)]

/-! ### C1 — the public-chat search request -/

/-- **C1** (code bug).  Evaluating `app.py`'s `get_vector_search_results`
request at a concrete query turn: the query vector it sends is the fixed
placeholder `[0] * 384` — identical for two different questions — and the
collection in the URL is derived from the bot identifier alone, not from
the Tenant Collection Namer's `(owner, bot)` namespace.  The code's own
comment ("Placeholder - you'd need proper embedding") marks the vector as
a stub, and every document is ingested under
`get_bot_collection_name(user_id, bot_id)`, so this search can never hit
the tenant's collection. -/
theorem claim_C1_code_bug :
    (get_vector_search_results_request "https://q.example" "b1"
        "How long do refunds take?").vector = List.replicate 384 0 ∧
    get_vector_search_results_request "https://q.example" "b1"
        "How long do refunds take?" =
      get_vector_search_results_request "https://q.example" "b1"
        "What is the warranty period?" ∧
    (get_vector_search_results_request "https://q.example" "b1"
        "How long do refunds take?").url =
      "https://q.example/collections/chatbot_b1/points/search" ∧
    (get_vector_search_results_request "https://q.example" "b1"
        "How long do refunds take?").url ≠
      "https://q.example/collections/" ++ get_bot_collection_name "u1" "b1"
        ++ "/points/search" := by
  refine ⟨rfl, rfl, rfl, by decide⟩

/-! ### C2 — determinism and injectivity of the tenant collection namer -/

/-- **C2** counterexample.  The namer is not injective over all pairs:
the two distinct pairs `("a_b", "c")` and `("a", "b_c")` — the first of
which contains the separator character in its owner identifier — collide
on the namespace `"chatbot_a_b_c"`. -/
theorem claim_C2_counterexample :
    get_bot_collection_name "a_b" "c" = get_bot_collection_name "a" "b_c" ∧
    (("a_b", "c") : String × String) ≠ ("a", "b_c") := by
  refine ⟨rfl, by decide⟩

/-- If two separator-terminated concatenations agree and neither left part
contains the separator, the parts agree. -/
theorem sep_split_unique {u₁ u₂ b₁ b₂ : List Char}
    (h₁ : '_' ∉ u₁) (h₂ : '_' ∉ u₂)
    (h : u₁ ++ '_' :: b₁ = u₂ ++ '_' :: b₂) : u₁ = u₂ ∧ b₁ = b₂ := by
  induction u₁ generalizing u₂ with
  | nil =>
    cases u₂ with
    | nil => simpa using h
    | cons c t =>
      exfalso
      simp only [List.nil_append, List.cons_append, List.cons.injEq] at h
      exact h₂ (h.1 ▸ List.mem_cons_self _ _)
  | cons c t ih =>
    cases u₂ with
    | nil =>
      exfalso
      simp only [List.nil_append, List.cons_append, List.cons.injEq] at h
      exact h₁ (h.1 ▸ List.mem_cons_self _ _)
    | cons c' t' =>
      simp only [List.cons_append, List.cons.injEq] at h
      obtain ⟨rfl, h'⟩ := h
      have ht := ih (fun hm => h₁ (List.mem_cons_of_mem _ hm))
        (fun hm => h₂ (List.mem_cons_of_mem _ hm)) h'
      exact ⟨by rw [ht.1], ht.2⟩

/-- **C2** (amended).  `get_bot_collection_name` is a pure deterministic
function of the pair, and it is injective provided neither owner
identifier contains the underscore separator: under that proviso two
pairs map to the same namespace exactly when they are equal.  (Without
the proviso injectivity fails, see the counterexample.) -/
theorem claim_C2_amended (u₁ b₁ u₂ b₂ : String)
    (h₁ : '_' ∉ u₁.data) (h₂ : '_' ∉ u₂.data) :
    get_bot_collection_name u₁ b₁ = get_bot_collection_name u₂ b₂ ↔
      (u₁ = u₂ ∧ b₁ = b₂) := by
  constructor
  · intro h
    have hd := congrArg String.data h
    simp only [get_bot_collection_name, String.data_append, List.append_assoc] at hd
    have hd₂ := List.append_cancel_left hd
    rw [List.singleton_append, List.singleton_append] at hd₂
    have := sep_split_unique h₁ h₂ hd₂
    exact ⟨String.ext this.1, String.ext this.2⟩
  · rintro ⟨rfl, rfl⟩
    rfl

/-- **C2** witness: the amended injectivity at concrete separator-free
identifiers distinguishes `("u1", "b1")` from `("u1", "b2")`. -/
theorem claim_C2_witness :
    (get_bot_collection_name "u1" "b1" = get_bot_collection_name "u1" "b2" ↔
      (("u1" : String) = "u1" ∧ ("b1" : String) = "b2")) :=
  claim_C2_amended "u1" "b1" "u1" "b2" (by decide) (by decide)

/-! ### C6 — source-type classification in citation formatting -/

/-- **C6** counterexample.  For the source value `""` (a non-web source
value, so the claim as stated requires the display name to be its final
path segment, which is `""`), the code instead displays the fallback
`"Unknown"`: the `os.path.basename(str(source)) if source else 'Unknown'`
branch treats every falsy source specially. -/
theorem claim_C6_counterexample :
    (format_source_document ⟨[("source", .vstr "")], "x"⟩).document = "Unknown" ∧
    basename "" = "" ∧ ("Unknown" : String) ≠ "" := by
  refine ⟨rfl, rfl, by decide⟩

/-- **C6** (amended).  A source value that is a string beginning with an
`http://` or `https://` scheme is classified as type `web` with the
display name equal to the full unchanged source string; any other truthy
source value is classified as type `pdf` with the display name equal to
the final path segment of its string form; a falsy source value (such as
the empty string or `None`) is classified as type `pdf` with the display
name `"Unknown"`. -/
theorem claim_C6_amended (md : List (String × PyVal)) (content : String) :
    (∀ s : String, dictGet md "source" (.vstr "Unknown") = .vstr s →
        startsWithHttp s = true →
        (format_source_document ⟨md, content⟩).type = "web" ∧
        (format_source_document ⟨md, content⟩).document = s) ∧
    (∀ v : PyVal, dictGet md "source" (.vstr "Unknown") = v →
        (match v with | .vstr s => startsWithHttp s | _ => false) = false →
        pyTruthy v = true →
        (format_source_document ⟨md, content⟩).type = "pdf" ∧
        (format_source_document ⟨md, content⟩).document = basename (pyStr v)) ∧
    (∀ v : PyVal, dictGet md "source" (.vstr "Unknown") = v →
        pyTruthy v = false →
        (format_source_document ⟨md, content⟩).type = "pdf" ∧
        (format_source_document ⟨md, content⟩).document = "Unknown") := by
  refine ⟨?_, ?_, ?_⟩
  · intro s h hw
    simp only [format_source_document, h, hw]
    constructor <;> simp [pyStr]
  · intro v h hw ht
    simp only [format_source_document, h]
    cases v with
    | vstr s => simp_all
    | vint n => simp_all
    | vfloat q => simp_all
    | vnone => simp_all
  · intro v h ht
    simp only [format_source_document, h]
    cases v with
    | vstr s =>
      have hs : s = "" := by
        have : s.isEmpty = true := by simpa [pyTruthy] using ht
        exact (String.isEmpty_iff s).mp this
      subst hs
      constructor <;> rfl
    | vint n => simp_all [pyTruthy]
    | vfloat q => simp_all [pyTruthy]
    | vnone => simp_all [pyTruthy]

/-- **C6** witness: the spec's two reference inputs plus the falsy case —
`"https://example.com/doc"` is type `web` with the name unchanged,
`"/data/manuals/guide.pdf"` is type `pdf` displayed as `"guide.pdf"`,
and the empty-string source displays `"Unknown"`. -/
theorem claim_C6_witness :
    ((format_source_document ⟨[("source", .vstr "https://example.com/doc")], "x"⟩).type = "web" ∧
     (format_source_document ⟨[("source", .vstr "https://example.com/doc")], "x"⟩).document =
        "https://example.com/doc") ∧
    ((format_source_document ⟨[("source", .vstr "/data/manuals/guide.pdf")], "x"⟩).type = "pdf" ∧
     (format_source_document ⟨[("source", .vstr "/data/manuals/guide.pdf")], "x"⟩).document =
        "guide.pdf") ∧
    ((format_source_document ⟨[("source", .vstr "")], "x"⟩).type = "pdf" ∧
     (format_source_document ⟨[("source", .vstr "")], "x"⟩).document = "Unknown") := by
  refine ⟨(claim_C6_amended _ _).1 "https://example.com/doc" rfl rfl, ?_,
    (claim_C6_amended _ _).2.2 (.vstr "") rfl rfl⟩
  have h := (claim_C6_amended [("source", PyVal.vstr "/data/manuals/guide.pdf")] "x").2.1
    (.vstr "/data/manuals/guide.pdf") rfl rfl rfl
  exact ⟨h.1, h.2.trans (by decide)⟩

/-! ### C7 — page-number display conversion -/

/-- **C7** (confirmed).  A stored integer page number is converted from
0-indexed to 1-indexed for display, and a document whose metadata has no
`page` key displays the sentinel `"N/A"`. -/
theorem claim_C7 (md : List (String × PyVal)) (content : String) :
    (∀ n : Int, md.lookup "page" = some (.vint n) →
        (format_source_document ⟨md, content⟩).page = .vint (n + 1)) ∧
    (md.lookup "page" = none →
        (format_source_document ⟨md, content⟩).page = .vstr "N/A") := by
  constructor
  · intro n h
    simp [format_source_document, dictGet, h]
  · intro h
    simp [format_source_document, dictGet, h]

/-- **C7** witness: stored page 0 displays as 1, stored page 2 displays
as 3, and an absent page displays `"N/A"`. -/
theorem claim_C7_witness :
    (format_source_document ⟨[("page", .vint 0)], "x"⟩).page = .vint 1 ∧
    (format_source_document ⟨[("page", .vint 2)], "x"⟩).page = .vint 3 ∧
    (format_source_document ⟨[], "x"⟩).page = .vstr "N/A" :=
  ⟨(claim_C7 _ _).1 0 rfl, (claim_C7 _ _).1 2 rfl, (claim_C7 _ _).2 rfl⟩

/-! ### C8 — excerpt truncation -/

/-- **C8** (confirmed).  Content strictly longer than 200 characters is
truncated to its first 200 characters followed by the `"..."` marker;
content of 200 characters or fewer is returned unmodified. -/
theorem claim_C8 (doc : Doc) :
    (200 < doc.page_content.length →
        (format_source_document doc).excerpt = doc.page_content.take 200 ++ "...") ∧
    (doc.page_content.length ≤ 200 →
        (format_source_document doc).excerpt = doc.page_content) := by
  constructor
  · intro h
    simp [format_source_document, h]
  · intro h
    have h' : ¬ (200 < doc.page_content.length) := by omega
    simp [format_source_document, h']

/-- A 250-character content string. -/
def content250 : String := String.mk (List.replicate 250 'a')

/-- A 100-character content string. -/
def content100 : String := String.mk (List.replicate 100 'b')

set_option maxRecDepth 8000 in
/-- **C8** witness: a 250-character content yields its first 200
characters plus the marker; a 100-character content is unchanged. -/
theorem claim_C8_witness :
    (format_source_document ⟨[], content250⟩).excerpt =
        String.mk (List.replicate 200 'a') ++ "..." ∧
    (format_source_document ⟨[], content100⟩).excerpt = content100 := by
  constructor
  · exact ((claim_C8 ⟨[], content250⟩).1 (by decide)).trans (by decide)
  · exact (claim_C8 ⟨[], content100⟩).2 (by decide)

/-! ### C10 — non-integer page values pass through unconverted -/

/-- **C10** (confirmed).  Only integer page values are incremented for
display: a stored page value that is not an integer (a string such as
`"2"`, a float, or `None`) is placed in the citation verbatim — the
0-to-1-index conversion silently does not apply to it. -/
theorem claim_C10 (md : List (String × PyVal)) (content : String) (v : PyVal)
    (h : md.lookup "page" = some v) (hni : ∀ n : Int, v ≠ .vint n) :
    (format_source_document ⟨md, content⟩).page = v := by
  simp only [format_source_document, dictGet, h, Option.getD_some]

/-- **C10** witness: the string page value `"2"` and the float page value
`2.0` are placed in the citation unchanged. -/
theorem claim_C10_witness :
    (format_source_document ⟨[("page", .vstr "2")], "x"⟩).page = .vstr "2" ∧
    (format_source_document ⟨[("page", .vfloat 2)], "x"⟩).page = .vfloat 2 :=
  ⟨claim_C10 _ "x" (.vstr "2") rfl (fun _ hn => PyVal.noConfusion hn),
   claim_C10 _ "x" (.vfloat 2) rfl (fun _ hn => PyVal.noConfusion hn)⟩

/-! ### Helper lemmas about the pipeline -/

/-- `get_cached_qa_chain`'s body yields no chain whenever the Qdrant
client fails, the tenant's collection is absent, or the embedding model
cannot be initialised. -/
theorem build_qa_chain_eq_none (env : Env) (k u b sp : String) (t : Rat)
    (h : env.client_error ≠ none ∨ env.points (get_bot_collection_name u b) = none ∨
         env.embedding_ok = false) :
    build_qa_chain env k u b sp t = none := by
  cases hc : (!pyTruthyStrOpt env.qdrant_api_key || !pyTruthyStrOpt env.qdrant_url) with
  | true => simp [build_qa_chain, get_vector_store, hc]
  | false =>
    cases hce : env.client_error with
    | some e => simp [build_qa_chain, get_vector_store, hc, hce]
    | none =>
      rcases h with h | h | h
      · exact absurd hce h
      · simp [build_qa_chain, get_vector_store, hc, hce, h]
      · cases hp : env.points (get_bot_collection_name u b) with
        | none => simp [build_qa_chain, get_vector_store, hc, hce, hp]
        | some docs => simp [build_qa_chain, get_vector_store, hc, hce, hp, h]

/-- When the Groq key is configured and the memo yields no chain,
`process_bot_query` returns the knowledge-base-not-ready failure and
performs no outbound call. -/
theorem process_kb_not_ready (env : Env) (cache : Cache) (u b q sp k : String) (t : Rat)
    (hkey : env.groq_api_key = some k) (hk : k.isEmpty = false)
    (hcc : (get_cached_qa_chain env cache k u b sp t).1 = none) :
    (process_bot_query env cache u b q sp t).1 =
      { success := false, answer := none, sources := none, error := some kbNotReadyMsg } ∧
    (process_bot_query env cache u b q sp t).2.1 = [] := by
  have hv : validate_api_key env = .ok k := by simp [validate_api_key, hkey, hk]
  constructor <;> simp [process_bot_query, process_bot_query_body, hv, hcc]

/-! ### C3 — absent namespace short-circuits the pipeline -/

/-- **C3** (confirmed).  When the tenant's collection does not exist in
the vector store (and the Groq key is configured and the memo holds no
entry for the tenant's key — the pipeline invoked fresh), the query
pipeline returns a failure whose message says documents must be added
first, and its call trace is empty: no similarity search and no
completion call. -/
theorem claim_C3 (env : Env) (cache : Cache) (u b q sp k : String) (t : Rat)
    (hkey : env.groq_api_key = some k) (hk : k.isEmpty = false)
    (hcold : cache.lookup (⟨k, u, b, sp, t⟩ : CacheKey) = none)
    (habs : env.points (get_bot_collection_name u b) = none) :
    (process_bot_query env cache u b q sp t).1 =
      { success := false, answer := none, sources := none, error := some kbNotReadyMsg } ∧
    (process_bot_query env cache u b q sp t).2.1 = [] := by
  refine process_kb_not_ready env cache u b q sp k t hkey hk ?_
  simp [get_cached_qa_chain, hcold,
    build_qa_chain_eq_none env k u b sp t (Or.inr (Or.inl habs))]

/-- **C3** witness: in a healthy environment where no collection exists,
a concrete query yields the knowledge-base failure and an empty call
trace. -/
theorem claim_C3_witness :
    (process_bot_query envNoColl [] "u1" "b1" "How long do refunds take?" "sys" 1).1 =
      { success := false, answer := none, sources := none, error := some kbNotReadyMsg } ∧
    (process_bot_query envNoColl [] "u1" "b1" "How long do refunds take?" "sys" 1).2.1 = [] :=
  claim_C3 envNoColl [] "u1" "b1" "How long do refunds take?" "sys" "gk" 1 rfl rfl rfl rfl

/-! ### C4 — clear followed by query -/

/-- **C4** counterexample.  A retrieval handle cached before the clear is
NOT invalidated by `clear_bot_knowledge` (the `st.cache_resource` memo is
keyed only by the five arguments, none of which the clear changes).
Concretely: a first query against tenant `(u1, b1)` succeeds and caches
the handle; `clear_bot_knowledge` deletes the collection; the immediately
following query with the same key reuses the stale handle, its search
raises the Qdrant not-found error, and the pipeline returns the generic
classified failure — not the KnowledgeBaseNotReady message the claim
requires. -/
theorem claim_C4_counterexample :
    ((process_bot_query envEx [] "u1" "b1" "How long do refunds take?" "sys" 1).1.success
        = true) ∧
    ((process_bot_query (clear_bot_knowledge envEx "u1" "b1").2
        (process_bot_query envEx [] "u1" "b1" "How long do refunds take?" "sys" 1).2.2
        "u1" "b1" "How long do refunds take?" "sys" 1).1.success = false) ∧
    ((process_bot_query (clear_bot_knowledge envEx "u1" "b1").2
        (process_bot_query envEx [] "u1" "b1" "How long do refunds take?" "sys" 1).2.2
        "u1" "b1" "How long do refunds take?" "sys" 1).1.error ≠ some kbNotReadyMsg) := by
  refine ⟨rfl, rfl, by decide⟩

/-- **C4** (amended).  For every (owner, bot) pair, calling
`clear(owner, bot)` and then immediately invoking the query pipeline for
the same pair — with any query text and unchanged system prompt and
temperature — yields the KnowledgeBaseNotReady failure, provided the Groq
key is configured and no retrieval handle for that tenant's cache key was
cached before the clear.  (A handle cached before the clear survives it
and is reused, and the query then fails with a generic classified message
instead — see the counterexample.) -/
theorem claim_C4_amended (env : Env) (cache : Cache) (u b q sp k : String) (t : Rat)
    (hkey : env.groq_api_key = some k) (hk : k.isEmpty = false)
    (hcold : cache.lookup (⟨k, u, b, sp, t⟩ : CacheKey) = none) :
    (process_bot_query (clear_bot_knowledge env u b).2 cache u b q sp t).1 =
      { success := false, answer := none, sources := none, error := some kbNotReadyMsg } := by
  cases hce : env.client_error with
  | some e =>
    have henv : (clear_bot_knowledge env u b).2 = env := by
      simp [clear_bot_knowledge, hce]
    rw [henv]
    refine (process_kb_not_ready env cache u b q sp k t hkey hk ?_).1
    simp [get_cached_qa_chain, hcold,
      build_qa_chain_eq_none env k u b sp t (Or.inl (by simp [hce]))]
  | none =>
    cases hp : env.points (get_bot_collection_name u b) with
    | none =>
      have henv : (clear_bot_knowledge env u b).2 = env := by
        simp [clear_bot_knowledge, hce, hp]
      rw [henv]
      refine (process_kb_not_ready env cache u b q sp k t hkey hk ?_).1
      simp [get_cached_qa_chain, hcold,
        build_qa_chain_eq_none env k u b sp t (Or.inr (Or.inl hp))]
    | some docs =>
      have henv : (clear_bot_knowledge env u b).2 =
          { env with points := fun n => if n = get_bot_collection_name u b then none
                                        else env.points n } := by
        simp [clear_bot_knowledge, hce, hp]
      rw [henv]
      refine (process_kb_not_ready _ cache u b q sp k t (by simpa using hkey) hk ?_).1
      have habs : ({ env with points := fun n => if n = get_bot_collection_name u b
                      then none else env.points n } : Env).points
          (get_bot_collection_name u b) = none := by simp
      simp [get_cached_qa_chain, hcold,
        build_qa_chain_eq_none _ k u b sp t (Or.inr (Or.inl habs))]

/-- **C4** witness: with a cold memo, clearing tenant `(u1, b1)`'s
knowledge and immediately querying it returns the KnowledgeBaseNotReady
failure. -/
theorem claim_C4_witness :
    (process_bot_query (clear_bot_knowledge envEx "u1" "b1").2 [] "u1" "b1"
        "How long do refunds take?" "sys" 1).1 =
      { success := false, answer := none, sources := none, error := some kbNotReadyMsg } :=
  claim_C4_amended envEx [] "u1" "b1" "How long do refunds take?" "sys" "gk" 1 rfl rfl rfl

/-! ### C5 — classification of retrieval/completion failures -/

/-- **C5** counterexample.  The claim's final clause — "the raw exception
text never appears in the returned message" — fails: when the completion
call raises an exception whose description is the single word `Sorry`
(which matches none of the three indicators), the pipeline returns the
fixed generic message, and that message does contain the raw exception
text `Sorry` (it begins with it). -/
theorem claim_C5_counterexample :
    (process_bot_query envSorryEx cacheEx "u1" "b1" "q" "sys" 1).1.error =
      some genericMsg ∧
    strContains genericMsg "Sorry" = true := by
  refine ⟨rfl, rfl⟩

/-- **C5** (amended).  Whenever the retrieval/completion phase of the
pipeline fails with any exception, the pipeline returns a failure whose
message is `classify_error` of the exception's description — chosen in
fixed priority order: a timeout indicator yields the Timeout message,
otherwise a rate-limit indicator yields the RateLimited message,
otherwise an api-key indicator yields the AuthConfig message, otherwise
the generic ProcessingError message — and that message is always exactly
one of the four fixed user-safe strings, so the raw exception text is
never incorporated into it (though an exception text that happens to be a
fragment of a fixed message trivially occurs within it, see the
counterexample). -/
theorem claim_C5_amended (env : Env) (cache : Cache) (u b q sp k : String) (t : Rat)
    (chain : QAChain) (e : String)
    (hkey : env.groq_api_key = some k) (hk : k.isEmpty = false)
    (hchain : (get_cached_qa_chain env cache k u b sp t).1 = some chain)
    (hfail : (invoke_qa_chain env chain q).1 = .error e) :
    (process_bot_query env cache u b q sp t).1 =
      { success := false, answer := none, sources := none,
        error := some (classify_error e) } ∧
    (classify_error e = timeoutMsg ∨ classify_error e = rateLimitMsg ∨
     classify_error e = apiKeyMsg ∨ classify_error e = genericMsg) := by
  have hv : validate_api_key env = .ok k := by simp [validate_api_key, hkey, hk]
  constructor
  · simp [process_bot_query, process_bot_query_body, hv, hchain, hfail]
  · unfold classify_error
    split
    · exact Or.inl rfl
    · split
      · exact Or.inr (Or.inl rfl)
      · split
        · exact Or.inr (Or.inr (Or.inl rfl))
        · exact Or.inr (Or.inr (Or.inr rfl))

/-- **C5** witness: a completion-host read timeout is returned as the
fixed Timeout message. -/
theorem claim_C5_witness :
    (process_bot_query envTimeoutEx cacheEx "u1" "b1" "q" "sys" 1).1 =
      { success := false, answer := none, sources := none,
        error := some (classify_error "Read timed out. (read timeout=30)") } ∧
    (classify_error "Read timed out. (read timeout=30)" = timeoutMsg ∨
     classify_error "Read timed out. (read timeout=30)" = rateLimitMsg ∨
     classify_error "Read timed out. (read timeout=30)" = apiKeyMsg ∨
     classify_error "Read timed out. (read timeout=30)" = genericMsg) :=
  claim_C5_amended envTimeoutEx cacheEx "u1" "b1" "q" "sys" "gk" 1 chainEx
    "Read timed out. (read timeout=30)" rfl rfl rfl rfl

/-! ### C9 — totality of process_bot_query -/

/-- **C9** (confirmed).  For every input and every behaviour of the
external collaborators — any configuration state, any client failure, any
memo contents, any similarity-search outcome, and a completion host that
may raise any exception — `process_bot_query` is total: in the embedding
every internal exception is modelled by `Except.error` and the function
nevertheless returns a plain result dictionary, which always carries a
boolean `success` flag, with `answer` and `sources` present on success
and a user-facing `error` string present on failure. -/
theorem claim_C9 (env : Env) (cache : Cache) (u b q sp : String) (t : Rat) :
    ((process_bot_query env cache u b q sp t).1.success = true ∧
     ((process_bot_query env cache u b q sp t).1.answer).isSome = true ∧
     ((process_bot_query env cache u b q sp t).1.sources).isSome = true) ∨
    ((process_bot_query env cache u b q sp t).1.success = false ∧
     ((process_bot_query env cache u b q sp t).1.error).isSome = true) := by
  cases hv : validate_api_key env with
  | error e =>
    right
    constructor <;> simp [process_bot_query, process_bot_query_body, hv]
  | ok k =>
    cases hc : (get_cached_qa_chain env cache k u b sp t).1 with
    | none =>
      right
      constructor <;> simp [process_bot_query, process_bot_query_body, hv, hc]
    | some chain =>
      cases hi : (invoke_qa_chain env chain q).1 with
      | error e =>
        right
        constructor <;> simp [process_bot_query, process_bot_query_body, hv, hc, hi]
      | ok pr =>
        left
        refine ⟨?_, ?_, ?_⟩ <;>
          simp [process_bot_query, process_bot_query_body, hv, hc, hi]

end PublicChat
